import Mathlib

/-!
Shallow embedding of the transport-credential adapters in
core/comm/creds.go: the server-side credential adapter (serverCreds) and
the dynamic client-side credential adapter (DynamicClientCredentials).

Go pointers to TLS configurations are modelled as optional addresses into
an explicit heap (none is the nil pointer); each method that can write
through a pointer threads the heap explicitly.  The TLS library itself
(gmtls handshakes, the gRPC static credential) is abstracted by oracle
functions passed as parameters; everything this file proves is about the
adapter code, never about the cryptographic library.
-/

/-- The fields of the gmtls configuration record that creds.go reads or
writes, plus the certificate and trust-root material the mutation
pipeline rotates. -/
structure Config where
  Certificates : List String
  RootCAs : List String
  NextProtos : List String
  MinVersion : Nat
  MaxVersion : Nat
  ServerName : String
deriving DecidableEq

/-- The wire value of TLS 1.2 (tls.VersionTLS12 = 0x0303). -/
def tls.VersionTLS12 : Nat := 0x0303

/-- tls.Config.Clone: an independent copy of the configuration value. -/
def Config.Clone (c : Config) : Config := c

/-- Address of a configuration object in the heap. -/
abbrev Addr := Nat

/-- A Go pointer to a configuration: none is the nil pointer. -/
abbrev Ptr := Option Addr

/-- The heap of live configuration objects. -/
abbrev Heap := Addr → Config

/-- Dereference a pointer: nil reads nothing. -/
def Heap.read (h : Heap) (p : Ptr) : Option Config := p.map h

/-- Write a configuration through a non-nil address. -/
def Heap.write (h : Heap) (a : Addr) (c : Config) : Heap :=
  fun b => if b = a then c else h b

/-- A Go runtime fault, distinct from an ordinary returned error. -/
inductive RuntimeFault where
  | nilDeref
deriving DecidableEq

/-- The error values this package declares or passes through.  Distinct
errors.New values are distinct constructors; errors coming out of the
TLS library carry their message. -/
inductive GoError where
  | clientHandshakeNotImpl
  | overrideHostnameNotSupported
  | serverHandshakeNotImplemented
  | missingServerConfig
  | libraryError (msg : String)
deriving DecidableEq

def ClientHandshakeNotImplError : GoError := GoError.clientHandshakeNotImpl

def OverrrideHostnameNotSupportedError : GoError := GoError.overrideHostnameNotSupported

def ServerHandshakeNotImplementedError : GoError := GoError.serverHandshakeNotImplemented

def MissingServerConfigError : GoError := GoError.missingServerConfig

/-- alpnProtoStr: the specified application level protocols for gRPC. -/
def alpnProtoStr : List String := ["h2"]

/-- A raw network connection; the field records what RemoteAddr().String()
reports, which is all creds.go reads from it. -/
structure Conn where
  remoteAddrStr : String
deriving DecidableEq

/-- An injected structured logger (identity only; construction is external). -/
structure FabricLogger where
  id : Nat
deriving DecidableEq

/-- One emitted failure log entry: the remote address tag and the error. -/
structure LogEntry where
  remoteAddress : String
  err : GoError
deriving DecidableEq

/-- The negotiated TLS session state surfaced on success. -/
structure ConnectionState where
  Version : Nat
  NegotiatedProtocol : String
  PeerCertificates : List String
deriving DecidableEq

/-- gmcredentials.TLSInfo: auth info carrying the connection state. -/
structure AuthInfo where
  State : ConnectionState
deriving DecidableEq

/-- A TLS-wrapped connection: the raw connection plus the configuration
pointer contents it was wrapped with. -/
structure TLSConn where
  raw : Conn
  config : Option Config
deriving DecidableEq

/-- tls.Server wraps a raw connection with a (possibly nil) configuration. -/
def tls.Server (rawConn : Conn) (config : Option Config) : TLSConn :=
  { raw := rawConn, config := config }

/-- RemoteAddr().String() of the wrapped connection delegates to the raw one. -/
def TLSConn.RemoteAddr (c : TLSConn) : String := c.raw.remoteAddrStr

/-- The TLS library server handshake, abstracted: from the raw connection
and the configuration it was wrapped with, either an error or the
negotiated state. -/
abbrev HandshakeFn := Conn → Option Config → Except GoError ConnectionState

/-- The TLS library client handshake, abstracted: from authority, raw
connection and configuration, either an error or the secured connection
and negotiated state. -/
abbrev ClientHsFn := String → Conn → Option Config → Except GoError (Conn × ConnectionState)

/-- A gRPC ProtocolInfo descriptor. -/
structure ProtocolInfoRec where
  SecurityProtocol : String
  SecurityVersion : String
deriving DecidableEq

/-- The protocol-info query of the standard gRPC TLS credential, abstracted. -/
abbrev InfoFn := Option Config → ProtocolInfoRec

/-- serverCreds: the server-side transport credential, holding a shared
configuration pointer and an optional logger. -/
structure serverCreds where
  serverConfig : Ptr
  logger : Option FabricLogger
deriving DecidableEq

/-- NewServerTransportCredentials: pins NextProtos to alpnProtoStr and the
minimum and maximum TLS versions to 1.2 on the caller-supplied shared
configuration (no clone), then wraps it.  The body starts by assigning
serverConfig.NextProtos, so a nil argument faults (no nil check). -/
def NewServerTransportCredentials (serverConfig : Ptr) (logger : Option FabricLogger)
    (h : Heap) : Except RuntimeFault (serverCreds × Heap) :=
  match serverConfig with
  | none => Except.error RuntimeFault.nilDeref
  | some a =>
    let cfg := h a
    let cfg1 := { cfg with
                  NextProtos := alpnProtoStr,
                  MinVersion := tls.VersionTLS12,
                  MaxVersion := tls.VersionTLS12 }
    Except.ok ({ serverConfig := some a, logger := logger }, Heap.write h a cfg1)

/-- ClientHandshake on serverCreds: not implemented, fixed error. -/
def serverCreds.ClientHandshake (_sc : serverCreds) (_authority : String)
    (_rawConn : Conn) : Option Conn × Option AuthInfo × Option GoError :=
  (none, none, some ClientHandshakeNotImplError)

/-- ServerHandshake on serverCreds: wraps the raw connection with the
configuration read through the shared pointer at call time, runs the
library handshake, logs the failure (remote address and error) when a
logger is present, and otherwise returns the secured connection with its
connection state. -/
def serverCreds.ServerHandshake (hs : HandshakeFn) (sc : serverCreds) (rawConn : Conn)
    (h : Heap) : (Option TLSConn × Option AuthInfo × Option GoError) × List LogEntry :=
  let conn := tls.Server rawConn (Heap.read h sc.serverConfig)
  match hs conn.raw conn.config with
  | Except.error e =>
    ((none, none, some e),
      match sc.logger with
      | some _ => [{ remoteAddress := conn.RemoteAddr, err := e }]
      | none => [])
  | Except.ok st => ((some conn, some { State := st }, none), [])

/-- Info on serverCreds: static protocol descriptor. -/
def serverCreds.Info (_sc : serverCreds) : ProtocolInfoRec :=
  { SecurityProtocol := "tls", SecurityVersion := "1.2" }

/-- Clone on serverCreds: re-runs NewServerTransportCredentials on the same
shared configuration pointer and the same logger. -/
def serverCreds.Clone (sc : serverCreds) (h : Heap) :
    Except RuntimeFault (serverCreds × Heap) :=
  NewServerTransportCredentials sc.serverConfig sc.logger h

/-- OverrideServerName on serverCreds: always the fixed unsupported error. -/
def serverCreds.OverrideServerName (_sc : serverCreds) (_name : String) : Option GoError :=
  some OverrrideHostnameNotSupportedError

/-- Modelled from the spec: the TLSOption type is declared elsewhere in the
repository (not under src/); section 3 of the spec defines a
configuration-mutation function as a pure transformation Config to Config
(mutates or replaces fields on a clone). -/
abbrev TLSOption := Config → Config

/-- DynamicClientCredentials: base configuration pointer plus the ordered
mutation pipeline. -/
structure DynamicClientCredentials where
  TLSConfig : Ptr
  TLSOptions : List TLSOption

/-- latestConfig: clone the base configuration, then apply every mutation
function in registration order to the clone; the heap is returned as the
methods that call this would return it.  A nil base pointer yields no
configuration. -/
def DynamicClientCredentials.latestConfig (dtc : DynamicClientCredentials)
    (h : Heap) : Option Config × Heap :=
  ((Heap.read h dtc.TLSConfig).map
      (fun base => dtc.TLSOptions.foldl (fun c f => f c) base.Clone),
    h)

/-- credentials.NewTLS: the standard gRPC TLS credential, bound to the
configuration value it was given (the framework keeps its own copy). -/
structure tlsCreds where
  config : Option Config
deriving DecidableEq

def credentials.NewTLS (c : Option Config) : tlsCreds := { config := c }

/-- ClientHandshake of the standard gRPC TLS credential: delegates to the
library client handshake with the bound configuration. -/
def tlsCreds.ClientHandshake (chs : ClientHsFn) (tc : tlsCreds) (authority : String)
    (rawConn : Conn) : Option Conn × Option AuthInfo × Option GoError :=
  match chs authority rawConn tc.config with
  | Except.error e => (none, none, some e)
  | Except.ok (c, st) => (some c, some { State := st }, none)

/-- Info of the standard gRPC TLS credential, abstracted by the oracle. -/
def tlsCreds.Info (infoFn : InfoFn) (tc : tlsCreds) : ProtocolInfoRec :=
  infoFn tc.config

/-- ClientHandshake on DynamicClientCredentials: derives the latest
configuration and delegates to credentials.NewTLS on that snapshot. -/
def DynamicClientCredentials.ClientHandshake (chs : ClientHsFn)
    (dtc : DynamicClientCredentials) (authority : String) (rawConn : Conn)
    (h : Heap) : (Option Conn × Option AuthInfo × Option GoError) × Heap :=
  let r := dtc.latestConfig h
  (tlsCreds.ClientHandshake chs (credentials.NewTLS r.1) authority rawConn, r.2)

/-- ServerHandshake on DynamicClientCredentials: not implemented, fixed error. -/
def DynamicClientCredentials.ServerHandshake (_dtc : DynamicClientCredentials)
    (_rawConn : Conn) (h : Heap) :
    (Option TLSConn × Option AuthInfo × Option GoError) × Heap :=
  ((none, none, some ServerHandshakeNotImplementedError), h)

/-- Info on DynamicClientCredentials: derives the latest configuration and
reports the standard TLS credential descriptor for it. -/
def DynamicClientCredentials.Info (infoFn : InfoFn) (dtc : DynamicClientCredentials)
    (h : Heap) : ProtocolInfoRec × Heap :=
  let r := dtc.latestConfig h
  (tlsCreds.Info infoFn (credentials.NewTLS r.1), r.2)

/-- Clone on DynamicClientCredentials: derives the latest configuration at
the moment of cloning and returns a standard credential bound to it. -/
def DynamicClientCredentials.Clone (dtc : DynamicClientCredentials) (h : Heap) :
    tlsCreds × Heap :=
  let r := dtc.latestConfig h
  (credentials.NewTLS r.1, r.2)

/-- OverrideServerName on DynamicClientCredentials: writes the server-name
field of the base configuration through the shared pointer and returns no
error; a nil base pointer faults. -/
def DynamicClientCredentials.OverrideServerName (dtc : DynamicClientCredentials)
    (name : String) (h : Heap) : Except RuntimeFault (Option GoError × Heap) :=
  match dtc.TLSConfig with
  | none => Except.error RuntimeFault.nilDeref
  | some a => Except.ok (none, Heap.write h a { h a with ServerName := name })

/-- The outcome of one server-side handshake attempt against a given
configuration snapshot: the specification-side summary that
serverCreds.ServerHandshake is compared against. -/
def serverHsOutcome (hs : HandshakeFn) (rawConn : Conn) (cfg : Option Config)
    (logger : Option FabricLogger) :
    (Option TLSConn × Option AuthInfo × Option GoError) × List LogEntry :=
  match hs rawConn cfg with
  | Except.error e =>
    ((none, none, some e),
      match logger with
      | some _ => [{ remoteAddress := rawConn.remoteAddrStr, err := e }]
      | none => [])
  | Except.ok st => ((some (tls.Server rawConn cfg), some { State := st }, none), [])

/-- A concrete configuration used to instantiate theorems on closed inputs. -/
def cfgW : Config :=
  { Certificates := [], RootCAs := [], NextProtos := [],
    MinVersion := 0, MaxVersion := 0, ServerName := "" }

/-- A concrete heap holding cfgW at every address. -/
def hW : Heap := fun _ => cfgW

/-- A concrete raw connection. -/
def connW : Conn := { remoteAddrStr := "192.0.2.1:7051" }

/-- A concrete negotiated state. -/
def stW : ConnectionState :=
  { Version := tls.VersionTLS12, NegotiatedProtocol := "h2",
    PeerCertificates := ["leaf"] }

/-- A concrete server credential with a logger, sharing address 0. -/
def scW : serverCreds := { serverConfig := some 0, logger := some { id := 0 } }

/-- A concrete dynamic client credential with an empty mutation pipeline. -/
def dtcW : DynamicClientCredentials := { TLSConfig := some 0, TLSOptions := [] }

/-- A concrete dynamic client credential whose pipeline pins the server name. -/
def dtcPinned : DynamicClientCredentials :=
  { TLSConfig := some 0,
    TLSOptions := [fun c => { c with ServerName := "pinned.example.com" }] }

/-- A library handshake that always fails. -/
def hsFailW : HandshakeFn := fun _ _ => Except.error (GoError.libraryError "handshake failure")

/-- A library handshake that always succeeds with stW. -/
def hsOkW : HandshakeFn := fun _ _ => Except.ok stW

/-- The error component OverrideServerName returned, none of the two if it faulted. -/
def overrideErrResult (dtc : DynamicClientCredentials) (name : String) (h : Heap) :
    Option (Option GoError) :=
  match dtc.OverrideServerName name h with
  | Except.ok (e, _) => some e
  | Except.error _ => none

/-- The heap after OverrideServerName with new-host runs on dtcPinned. -/
def hAfterOverride : Heap :=
  match dtcPinned.OverrideServerName "new-host" hW with
  | Except.ok (_, h2) => h2
  | Except.error _ => hW

theorem serverHandshake_eq_outcome (hs : HandshakeFn) (sc : serverCreds) (conn : Conn)
    (h : Heap) :
    serverCreds.ServerHandshake hs sc conn h =
      serverHsOutcome hs conn (Heap.read h sc.serverConfig) sc.logger := rfl

theorem read_write_same (h : Heap) (a : Addr) (c : Config) :
    Heap.read (Heap.write h a c) (some a) = some c := by
  simp [Heap.read, Heap.write]

theorem foldl_preserves_ServerName (opts : List TLSOption)
    (hopts : ∀ f ∈ opts, ∀ c, (f c).ServerName = c.ServerName) (c : Config) :
    (opts.foldl (fun c f => f c) c).ServerName = c.ServerName := by
  induction opts generalizing c with
  | nil => rfl
  | cons f rest ih =>
    rw [List.foldl_cons,
      ih (fun g hg c2 => hopts g (List.mem_cons_of_mem f hg) c2) (f c),
      hopts f (List.mem_cons_self f rest) c]

/-- Claim C1: latestConfig returns a clone of the base configuration with
every mutation function applied in registration order (left to right), so
when two mutation functions write the same certificate field the result
carries the value written by the later-registered function. -/
theorem c1_latestConfig_order_and_last_writer_wins (a : Addr) (h : Heap)
    (opts : List TLSOption) (u v : List String) :
    (DynamicClientCredentials.latestConfig { TLSConfig := some a, TLSOptions := opts } h).1 =
      some (opts.foldl (fun c f => f c) (Config.Clone (h a))) ∧
    Option.map Config.Certificates
      (DynamicClientCredentials.latestConfig
        { TLSConfig := some a,
          TLSOptions := opts ++ [fun c => { c with Certificates := u },
            fun c => { c with Certificates := v }] } h).1 = some v := by
  constructor
  · rfl
  · simp [DynamicClientCredentials.latestConfig, Heap.read, List.foldl_append]

/-- Claim C2: every derivation on the dynamic client adapter (latestConfig,
and ClientHandshake, Info and Clone, which derive through it) leaves the
heap, hence the base configuration, unchanged; OverrideServerName writes
only the server-name field of the base configuration and touches no other
address. -/
theorem c2_derivations_leave_base_unchanged (dtc : DynamicClientCredentials) (h : Heap) :
    (dtc.latestConfig h).2 = h ∧
    (∀ (chs : ClientHsFn) (authority : String) (conn : Conn),
      (DynamicClientCredentials.ClientHandshake chs dtc authority conn h).2 = h) ∧
    (∀ infoFn : InfoFn, (DynamicClientCredentials.Info infoFn dtc h).2 = h) ∧
    (dtc.Clone h).2 = h ∧
    (∀ (a : Addr) (name : String), dtc.TLSConfig = some a →
      dtc.OverrideServerName name h =
        Except.ok (none, Heap.write h a { h a with ServerName := name }) ∧
      (∀ b, b ≠ a → Heap.write h a { h a with ServerName := name } b = h b)) := by
  refine ⟨rfl, fun _ _ _ => rfl, fun _ => rfl, rfl, fun a name ha => ⟨?_, fun b hb => if_neg hb⟩⟩
  simp [DynamicClientCredentials.OverrideServerName, ha]

/-- Witness for claim C2 at a concrete adapter, heap and name. -/
theorem c2_witness :
    DynamicClientCredentials.OverrideServerName dtcW "peer.example.com" hW =
      Except.ok (none, Heap.write hW 0 { hW 0 with ServerName := "peer.example.com" }) :=
  ((c2_derivations_leave_base_unchanged dtcW hW).2.2.2.2 0 "peer.example.com" rfl).1

/-- Claim C3: ServerHandshake reads the shared configuration at call time:
on the current heap it uses the configuration stored at the shared
address, and after that address is mutated a later handshake uses the
mutated configuration, without reconstructing the adapter. -/
theorem c3_server_handshake_reads_config_at_call_time (hs : HandshakeFn) (a : Addr)
    (logger : Option FabricLogger) (conn1 conn2 : Conn) (h : Heap) (cfg2 : Config) :
    serverCreds.ServerHandshake hs { serverConfig := some a, logger := logger } conn1 h =
      serverHsOutcome hs conn1 (some (h a)) logger ∧
    serverCreds.ServerHandshake hs { serverConfig := some a, logger := logger } conn2
        (Heap.write h a cfg2) =
      serverHsOutcome hs conn2 (some cfg2) logger := by
  constructor
  · rfl
  · simp [serverHandshake_eq_outcome, read_write_same]

/-- Claim C5: construction pins, on the supplied shared configuration
itself, the ALPN list to exactly h2 and both the minimum and the maximum
TLS version to 1.2, whatever values the caller had set there. -/
theorem c5_construction_pins_alpn_and_version (a : Addr) (logger : Option FabricLogger)
    (h : Heap) :
    ∃ sc h2, NewServerTransportCredentials (some a) logger h = Except.ok (sc, h2) ∧
      (h2 a).NextProtos = ["h2"] ∧
      (h2 a).MinVersion = tls.VersionTLS12 ∧
      (h2 a).MaxVersion = tls.VersionTLS12 ∧
      (h2 a).MinVersion = (h2 a).MaxVersion := by
  refine ⟨_, _, rfl, ?_, ?_, ?_, ?_⟩ <;> simp [Heap.write, alpnProtoStr]

/-- Claim C6: each role-misuse entry point returns its designated fixed
error value with no connection object and no auth info, on every input. -/
theorem c6_role_misuse_fixed_errors :
    (∀ (sc : serverCreds) (authority : String) (conn : Conn),
      serverCreds.ClientHandshake sc authority conn =
        (none, none, some ClientHandshakeNotImplError)) ∧
    (∀ (dtc : DynamicClientCredentials) (conn : Conn) (h : Heap),
      DynamicClientCredentials.ServerHandshake dtc conn h =
        ((none, none, some ServerHandshakeNotImplementedError), h)) ∧
    (∀ (sc : serverCreds) (name : String),
      serverCreds.OverrideServerName sc name = some OverrrideHostnameNotSupportedError) :=
  ⟨fun _ _ _ => rfl, fun _ _ _ => rfl, fun _ _ => rfl⟩

/-- Counterexample to claim C4 as stated: on the concrete adapter dtcPinned,
whose mutation pipeline writes the server-name field, OverrideServerName
with new-host succeeds with no error, yet the snapshot derived afterwards
carries the pipeline value pinned.example.com, not new-host. -/
theorem c4_counterexample :
    overrideErrResult dtcPinned "new-host" hW = some none ∧
    Option.map Config.ServerName
      (DynamicClientCredentials.latestConfig dtcPinned hAfterOverride).1 =
      some "pinned.example.com" ∧
    ¬ Option.map Config.ServerName
        (DynamicClientCredentials.latestConfig dtcPinned hAfterOverride).1 =
      some "new-host" := by
  refine ⟨rfl, rfl, ?_⟩
  decide

/-- Claim C4 amended: OverrideServerName writes name into the server-name
field of the base configuration and returns no error; provided no
registered mutation function writes the server-name field, every snapshot
derived after that call carries the most recently set name (and by claim
C2 derivations in between never change the heap). -/
theorem c4_override_sets_base_server_name (dtc : DynamicClientCredentials) (a : Addr)
    (h : Heap) (name : String) (ha : dtc.TLSConfig = some a)
    (hopts : ∀ f ∈ dtc.TLSOptions, ∀ c, (f c).ServerName = c.ServerName) :
    dtc.OverrideServerName name h =
      Except.ok (none, Heap.write h a { h a with ServerName := name }) ∧
    Option.map Config.ServerName
      (dtc.latestConfig (Heap.write h a { h a with ServerName := name })).1 =
      some name := by
  constructor
  · simp [DynamicClientCredentials.OverrideServerName, ha]
  · simp [DynamicClientCredentials.latestConfig, ha, read_write_same, Config.Clone,
      foldl_preserves_ServerName dtc.TLSOptions hopts]

/-- Witness for the amended claim C4 at a concrete adapter, heap and name. -/
theorem c4_witness :
    DynamicClientCredentials.OverrideServerName dtcW "new-host" hW =
      Except.ok (none, Heap.write hW 0 { hW 0 with ServerName := "new-host" }) ∧
    Option.map Config.ServerName
      (DynamicClientCredentials.latestConfig dtcW
        (Heap.write hW 0 { hW 0 with ServerName := "new-host" })).1 =
      some "new-host" :=
  c4_override_sets_base_server_name dtcW 0 hW "new-host" rfl
    (by simp [dtcW])

/-- Claim C7: when the library handshake fails, ServerHandshake returns the
underlying error unchanged with nil connection and nil auth info and logs
exactly one failure entry (remote address and error) iff a logger was
supplied; when it succeeds, it returns the secured connection and auth
info carrying the negotiated state, no error and no log entry. -/
theorem c7_server_handshake_failure_and_success (hs : HandshakeFn) (sc : serverCreds)
    (rawConn : Conn) (h : Heap) :
    (∀ e, hs rawConn (Heap.read h sc.serverConfig) = Except.error e →
      serverCreds.ServerHandshake hs sc rawConn h =
        ((none, none, some e),
          if sc.logger.isSome then
            [{ remoteAddress := rawConn.remoteAddrStr, err := e }]
          else [])) ∧
    (∀ st, hs rawConn (Heap.read h sc.serverConfig) = Except.ok st →
      serverCreds.ServerHandshake hs sc rawConn h =
        ((some (tls.Server rawConn (Heap.read h sc.serverConfig)),
          some { State := st }, none), [])) := by
  constructor
  · intro e he
    rw [serverHandshake_eq_outcome]
    cases hl : sc.logger <;> simp [serverHsOutcome, he, hl]
  · intro st hst
    rw [serverHandshake_eq_outcome]
    simp [serverHsOutcome, hst]

/-- Witness for claim C7: a concrete failing and a concrete succeeding
handshake. -/
theorem c7_witness :
    serverCreds.ServerHandshake hsFailW scW connW hW =
      ((none, none, some (GoError.libraryError "handshake failure")),
        [{ remoteAddress := "192.0.2.1:7051",
           err := GoError.libraryError "handshake failure" }]) ∧
    serverCreds.ServerHandshake hsOkW scW connW hW =
      ((some (tls.Server connW (Heap.read hW scW.serverConfig)),
        some { State := stW }, none), []) := by
  constructor
  · have h1 := (c7_server_handshake_failure_and_success hsFailW scW connW hW).1
      (GoError.libraryError "handshake failure") rfl
    simpa [scW, connW] using h1
  · exact (c7_server_handshake_failure_and_success hsOkW scW connW hW).2 stW rfl

/-- Claim C8: Clone on the server adapter yields a new adapter whose
configuration field is the very same shared pointer and whose logger is
the same logger, so handshakes of the original and of the clone read the
same address and both observe a mutation written there. -/
theorem c8_server_clone_shares_config (a : Addr) (logger : Option FabricLogger) (h : Heap) :
    ∃ sc2 h2,
      serverCreds.Clone { serverConfig := some a, logger := logger } h =
        Except.ok (sc2, h2) ∧
      sc2.serverConfig = some a ∧
      sc2.logger = logger ∧
      (∀ (hs : HandshakeFn) (conn : Conn) (h3 : Heap),
        serverCreds.ServerHandshake hs sc2 conn h3 =
          serverCreds.ServerHandshake hs { serverConfig := some a, logger := logger }
            conn h3) ∧
      (∀ (hs : HandshakeFn) (conn : Conn) (h3 : Heap) (cfg2 : Config),
        serverCreds.ServerHandshake hs sc2 conn (Heap.write h3 a cfg2) =
          serverHsOutcome hs conn (some cfg2) logger) := by
  refine ⟨{ serverConfig := some a, logger := logger }, _, rfl, rfl, rfl,
    fun _ _ _ => rfl, fun hs conn h3 cfg2 => ?_⟩
  simp [serverHandshake_eq_outcome, read_write_same]

/-- Claim C9: Clone on the dynamic client adapter returns a standard
credential bound to the snapshot derived at the moment of cloning, and a
base mutation made afterwards (via OverrideServerName) changes what a
later clone carries although the earlier clone, a pure value holding the
old snapshot, does not mention the heap at all. -/
theorem c9_client_clone_freezes_snapshot (dtc : DynamicClientCredentials) (a : Addr)
    (h : Heap) (name : String) (ha : dtc.TLSConfig = some a)
    (hopts : ∀ f ∈ dtc.TLSOptions, ∀ c, (f c).ServerName = c.ServerName) :
    (dtc.Clone h).1 = credentials.NewTLS (dtc.latestConfig h).1 ∧
    (∀ (chs : ClientHsFn) (authority : String) (conn : Conn),
      tlsCreds.ClientHandshake chs (dtc.Clone h).1 authority conn =
        tlsCreds.ClientHandshake chs (credentials.NewTLS (dtc.latestConfig h).1)
          authority conn) ∧
    Option.map Config.ServerName ((dtc.Clone h).1).config = some (h a).ServerName ∧
    (∀ h2, dtc.OverrideServerName name h = Except.ok (none, h2) →
      Option.map Config.ServerName ((dtc.Clone h2).1).config = some name) := by
  refine ⟨rfl, fun _ _ _ => rfl, ?_, ?_⟩
  · simp [DynamicClientCredentials.Clone, DynamicClientCredentials.latestConfig,
      credentials.NewTLS, ha, Heap.read, Config.Clone,
      foldl_preserves_ServerName dtc.TLSOptions hopts]
  · intro h2 heq
    simp [DynamicClientCredentials.OverrideServerName, ha] at heq
    subst heq
    simp [DynamicClientCredentials.Clone, DynamicClientCredentials.latestConfig,
      credentials.NewTLS, ha, read_write_same, Config.Clone,
      foldl_preserves_ServerName dtc.TLSOptions hopts]

/-- Witness for claim C9: the clone taken after a concrete override carries
the overridden name. -/
theorem c9_witness :
    Option.map Config.ServerName
      ((DynamicClientCredentials.Clone dtcW
          (Heap.write hW 0 { hW 0 with ServerName := "peer2.example.com" })).1).config =
      some "peer2.example.com" :=
  (c9_client_clone_freezes_snapshot dtcW 0 hW "peer2.example.com" rfl
      (by simp [dtcW])).2.2.2
    (Heap.write hW 0 { hW 0 with ServerName := "peer2.example.com" }) rfl

/-- Claim C10: NewServerTransportCredentials performs no nil check, so a
nil configuration faults while assigning the ALPN list; and the declared
MissingServerConfigError is never returned by any operation here: the
fixed role-misuse errors differ from it, the client override returns no
error, and both handshake paths only pass through an error the TLS
library itself produced. -/
theorem c10_nil_config_faults_and_missing_error_unreturned :
    (∀ (logger : Option FabricLogger) (h : Heap),
      NewServerTransportCredentials none logger h =
        Except.error RuntimeFault.nilDeref) ∧
    (∀ (sc : serverCreds) (authority : String) (conn : Conn),
      (serverCreds.ClientHandshake sc authority conn).2.2 ≠
        some MissingServerConfigError) ∧
    (∀ (sc : serverCreds) (name : String),
      serverCreds.OverrideServerName sc name ≠ some MissingServerConfigError) ∧
    (∀ (dtc : DynamicClientCredentials) (conn : Conn) (h : Heap),
      ((DynamicClientCredentials.ServerHandshake dtc conn h).1).2.2 ≠
        some MissingServerConfigError) ∧
    (∀ (dtc : DynamicClientCredentials) (name : String) (h : Heap)
        (r : Option GoError × Heap),
      dtc.OverrideServerName name h = Except.ok r → r.1 = none) ∧
    (∀ (hs : HandshakeFn) (sc : serverCreds) (conn : Conn) (h : Heap) (e : GoError),
      ((serverCreds.ServerHandshake hs sc conn h).1).2.2 = some e →
      hs conn (Heap.read h sc.serverConfig) = Except.error e) ∧
    (∀ (chs : ClientHsFn) (dtc : DynamicClientCredentials) (authority : String)
        (conn : Conn) (h : Heap) (e : GoError),
      ((DynamicClientCredentials.ClientHandshake chs dtc authority conn h).1).2.2 =
        some e →
      chs authority conn (dtc.latestConfig h).1 = Except.error e) := by
  refine ⟨fun _ _ => rfl, ?_, ?_, ?_, ?_, ?_, ?_⟩
  · intro sc authority conn hcontra
    simp [serverCreds.ClientHandshake, ClientHandshakeNotImplError,
      MissingServerConfigError] at hcontra
  · intro sc name hcontra
    simp [serverCreds.OverrideServerName, OverrrideHostnameNotSupportedError,
      MissingServerConfigError] at hcontra
  · intro dtc conn h hcontra
    simp [DynamicClientCredentials.ServerHandshake, ServerHandshakeNotImplementedError,
      MissingServerConfigError] at hcontra
  · intro dtc name h r heq
    cases hp : dtc.TLSConfig with
    | none => simp [DynamicClientCredentials.OverrideServerName, hp] at heq
    | some a =>
      simp [DynamicClientCredentials.OverrideServerName, hp] at heq
      rw [← heq]
  · intro hs sc conn h e he
    rw [serverHandshake_eq_outcome] at he
    cases hres : hs conn (Heap.read h sc.serverConfig) with
    | error e2 =>
      simp [serverHsOutcome, hres] at he
      rw [he]
    | ok st => simp [serverHsOutcome, hres] at he
  · intro chs dtc authority conn h e he
    cases hres : chs authority conn (dtc.latestConfig h).1 with
    | error e2 =>
      simp [DynamicClientCredentials.ClientHandshake, tlsCreds.ClientHandshake,
        credentials.NewTLS, hres] at he
      rw [he]
    | ok p =>
      obtain ⟨c, st⟩ := p
      simp [DynamicClientCredentials.ClientHandshake, tlsCreds.ClientHandshake,
        credentials.NewTLS, hres] at he

/-- Witness for claim C10: the nil construction faults and a concrete
server-handshake error is one the library produced. -/
theorem c10_witness :
    NewServerTransportCredentials none (some { id := 0 }) hW =
      Except.error RuntimeFault.nilDeref ∧
    hsFailW connW (Heap.read hW scW.serverConfig) =
      Except.error (GoError.libraryError "handshake failure") :=
  ⟨(c10_nil_config_faults_and_missing_error_unreturned).1 (some { id := 0 }) hW,
    (c10_nil_config_faults_and_missing_error_unreturned).2.2.2.2.2.1 hsFailW scW connW
      hW (GoError.libraryError "handshake failure") rfl⟩
